import Mathlib

/-!
Verification of the Issue Reporter component
(src/src/components/IssueReporter.js).

The component is a single-page React form collecting a title, a sender
email and a dynamic list of free-text steps.  Submission stages the form
data, collects a recipient email through a modal, persists one record to
a remote document store (firestore addDoc) and dispatches a notification
email (emailjs).  We embed the component's state and its event handlers
as pure Lean functions; the two external calls are modelled as events in
an explicit trace, parameterised by their success or failure, and the
reachable states of the component are an inductive closure of the
handlers over the initial state.
-/

/-- One entry of the dynamic `steps` field array: `{ value: string }`
(useForm defaultValues, IssueReporter.js line 23). -/
structure StepField where
  value : String
deriving DecidableEq, Repr

/-- The values held by the react-hook-form instance: `issueTitle`,
`senderEmail` and the `steps` field array (IssueReporter.js lines 20-24). -/
structure FormData where
  issueTitle : String
  senderEmail : String
  steps : List StepField
deriving DecidableEq, Repr

/-- `defaultValues` of the `useForm` call (IssueReporter.js lines 20-24):
empty title, empty sender email, a single empty step. -/
def defaultValues : FormData :=
  { issueTitle := "", senderEmail := "", steps := [{ value := "" }] }

/-- The error slots the handlers write: the manual list-level `steps`
error (line 171) and the manual `root` error (line 159).  `clearErrors()`
(line 178) and `reset()` (line 153) clear both. -/
structure FormErrors where
  stepsError : Option String
  rootError : Option String
deriving DecidableEq, Repr

/-- The component state: the three `useState` hooks (lines 7-9) plus the
form values and error slots owned by react-hook-form. -/
structure ComponentState where
  showEmailModal : Bool
  recipientEmail : String
  pendingFormData : Option FormData
  form : FormData
  errors : FormErrors
deriving DecidableEq, Repr

/-- The component's initial state: modal closed, empty recipient, no
staged data, form at `defaultValues`, no errors. -/
def initialState : ComponentState :=
  { showEmailModal := false
    recipientEmail := ""
    pendingFormData := none
    form := defaultValues
    errors := { stepsError := none, rootError := none } }

/-- Strip leading whitespace characters from a character list. -/
def dropLeadingWs (l : List Char) : List Char :=
  l.dropWhile Char.isWhitespace

/-- JS `String.prototype.trim()`: remove leading and trailing
whitespace.  Embedded over the string's character list so that it
computes by kernel reduction; `Char.isWhitespace` covers the ASCII
whitespace (space, tab, CR, LF) relevant to the component's inputs. -/
def jsTrim (s : String) : String :=
  ⟨(dropLeadingWs (dropLeadingWs s.data.reverse).reverse)⟩

/-- The argument shape `formatEmailBody` receives: an object with
`issueTitle` and `steps` (lines 64, 82-85). -/
structure EmailBodyData where
  issueTitle : String
  steps : List StepField
deriving DecidableEq, Repr

/-- `formatEmailBody` (IssueReporter.js lines 64-79): pairs each step
with its 1-based original index, trims, drops entries whose trimmed
value is empty (JS string truthiness), then appends one numbered line
per kept step — numbering by position in the filtered list — after the
`Issue: <title>`, blank line and `Steps:` header. -/
def formatEmailBody (data : EmailBodyData) : String :=
  let nonEmptySteps :=
    (data.steps.enum.map (fun p => (jsTrim p.2.value, p.1 + 1))).filter
      (fun item => item.1 != "")
  let body := "Issue: " ++ data.issueTitle ++ "\n\n" ++ "Steps:\n"
  nonEmptySteps.enum.foldl
    (fun b p => b ++ toString (p.1 + 1) ++ ". " ++ p.2.1 ++ "\n") body

/-- Spec-side description of the step-list portion of the body: trim all
steps, keep the non-empty ones in input order, and emit
`<k>. <step>\n` with `k` counting contiguously from 1. -/
def specNumberedStepLines (steps : List String) : String :=
  let kept := (steps.map jsTrim).filter (fun s => s != "")
  String.join (kept.enum.map (fun p => toString (p.1 + 1) ++ ". " ++ p.2 ++ "\n"))

/-- The record written to the `issues` collection (IssueReporter.js
lines 134-143).  `createdAt` is the server-assigned timestamp sentinel
`serverTimestamp()` and carries no client-side information, so it is not
modelled. -/
structure IssueRecord where
  title : String
  senderEmail : String
  steps : List String
  recipientEmail : String
  status : String
deriving DecidableEq, Repr

/-- The `templateParams` object posted to the email service
(IssueReporter.js lines 87-96).  The wall-clock `timestamp` field
(`new Date().toLocaleString()`) is not modelled. -/
structure TemplateParams where
  to_email : String
  from_email : String
  from_name : String
  subject : String
  message : String
  issue_title : String
  steps_list : String
deriving DecidableEq, Repr

/-- The external calls the component can issue.  `addDoc` and
`sendEmail` are the two calls the code makes (lines 146 and 106);
`deleteDoc` is the firestore retraction call, included in the event
alphabet so that its absence from every trace is expressible — the
component never imports or issues it. -/
inductive ExtCall where
  | addDoc (record : IssueRecord)
  | deleteDoc (record : IssueRecord)
  | sendEmail (params : TemplateParams)
deriving DecidableEq, Repr

/-- Construction of the `issueData` record inside
`handleEmailModalSubmit` (lines 134-143): steps filtered by trimmed
truthiness, then mapped to their trimmed values. -/
def buildIssueData (pending : FormData) (recipientEmail : String) : IssueRecord :=
  { title := pending.issueTitle
    senderEmail := pending.senderEmail
    steps := (pending.steps.filter (fun step => jsTrim step.value != "")).map
      (fun step => jsTrim step.value)
    recipientEmail := recipientEmail
    status := "open" }

/-- The payload built by `sendEmail` (lines 81-103): the body re-uses
`formatEmailBody` on the already-filtered trimmed steps, and
`steps_list` is a separately numbered newline-joined list. -/
def sendEmailParams (issueData : IssueRecord) (senderEmail recipientEmail : String) :
    TemplateParams :=
  let emailBody := formatEmailBody
    { issueTitle := issueData.title
      steps := issueData.steps.map (fun step => { value := step }) }
  { to_email := recipientEmail
    from_email := senderEmail
    from_name := senderEmail
    subject := "Issue Report: " ++ issueData.title
    message := emailBody
    issue_title := issueData.title
    steps_list := String.intercalate "\n"
      (issueData.steps.enum.map (fun p => toString (p.1 + 1) ++ ". " ++ p.2)) }

/-- `addStep` (lines 47-55): `append({ value: '' })` adds one empty
entry at the end of the field array.  The delayed focus call
(`setTimeout`, 100ms) touches only DOM focus and is not part of the
state. -/
def addStep (s : ComponentState) : ComponentState :=
  { s with form := { s.form with steps := s.form.steps ++ [{ value := "" }] } }

/-- The fields of a keydown event that the component can observe.  The
handler reads only `key` and `shiftKey` (line 58); the other modifier
flags exist on the DOM event and are modelled to show they are ignored. -/
structure KeyEvent where
  key : String
  shiftKey : Bool
  ctrlKey : Bool
  altKey : Bool
  metaKey : Bool
deriving DecidableEq, Repr

/-- `handleKeyPress` (lines 57-62): on `Enter` without Shift it calls
`e.preventDefault()` and `addStep()`.  The returned Bool records whether
`preventDefault` was called. -/
def handleKeyPress (s : ComponentState) (e : KeyEvent) : ComponentState × Bool :=
  if e.key == "Enter" && !e.shiftKey then (addStep s, true) else (s, false)

/-- `setError('root', ...)` in the catch block (lines 158-162). -/
def setRootError (s : ComponentState) : ComponentState :=
  { s with errors :=
      { s.errors with rootError := some "Failed to submit issue. Please try again." } }

/-- `onSubmit` (lines 166-183): if no step has a non-empty trimmed
value, set the manual `steps` error and return; otherwise clear all
errors, stage the data and open the modal. -/
def onSubmit (s : ComponentState) (data : FormData) : ComponentState :=
  if data.steps.any (fun step => jsTrim step.value != "") then
    { s with errors := { stepsError := none, rootError := none }
             pendingFormData := some data
             showEmailModal := true }
  else
    { s with errors :=
        { s.errors with stepsError := some "Please provide at least one step." } }

/-- The Cancel button of the modal (lines 358-368): close the modal,
clear the recipient email and the staged data.  The form values and
errors are untouched. -/
def cancelEmailModal (s : ComponentState) : ComponentState :=
  { s with showEmailModal := false, recipientEmail := "", pendingFormData := none }

/-- `handleEmailModalSubmit` (lines 127-164), parameterised by the
outcome of each external call.  An early return on a whitespace-only
recipient; otherwise `addDoc` is awaited first, then `sendEmail`; on
success `reset()` restores `defaultValues` and clears errors, and the
modal state is cleared; any thrown error lands in the catch block which
only sets the root error.  A `none` staged form would raise a TypeError
inside the try block, caught by the same catch.  The returned list is
the trace of external calls, each paired with its success flag. -/
def handleEmailModalSubmit (s : ComponentState) (addDocOk : Bool) (sendEmailOk : Bool) :
    ComponentState × List (ExtCall × Bool) :=
  if jsTrim s.recipientEmail == "" then (s, [])
  else
    match s.pendingFormData with
    | none => (setRootError s, [])
    | some pending =>
      let issueData := buildIssueData pending s.recipientEmail
      if addDocOk then
        let params := sendEmailParams issueData pending.senderEmail s.recipientEmail
        if sendEmailOk then
          ({ s with form := defaultValues
                    errors := { stepsError := none, rootError := none }
                    showEmailModal := false
                    recipientEmail := ""
                    pendingFormData := none },
           [(ExtCall.addDoc issueData, true), (ExtCall.sendEmail params, true)])
        else
          (setRootError s,
           [(ExtCall.addDoc issueData, true), (ExtCall.sendEmail params, false)])
      else
        (setRootError s, [(ExtCall.addDoc issueData, false)])

/-- The user-triggerable events of the component: typing in the three
kinds of form fields and the modal input, keydown on a step input, the
`+ Step` button, form submission, and the modal's Cancel and Submit
buttons (the latter carrying the outcomes of the two external calls). -/
inductive UIEvent where
  | editTitle (t : String)
  | editSenderEmail (v : String)
  | editStep (i : Nat) (v : String)
  | editRecipientEmail (v : String)
  | stepKeyDown (e : KeyEvent)
  | clickAddStep
  | formSubmit
  | modalCancel
  | modalSubmit (addDocOk : Bool) (sendEmailOk : Bool)
deriving DecidableEq, Repr

/-- One event-handler invocation: the successor state and the external
calls it issued.  Only the modal Submit handler makes external calls. -/
def applyUIEvent (s : ComponentState) (a : UIEvent) : ComponentState × List (ExtCall × Bool) :=
  match a with
  | .editTitle t => ({ s with form := { s.form with issueTitle := t } }, [])
  | .editSenderEmail v => ({ s with form := { s.form with senderEmail := v } }, [])
  | .editStep i v =>
      ({ s with form := { s.form with steps := s.form.steps.set i { value := v } } }, [])
  | .editRecipientEmail v => ({ s with recipientEmail := v }, [])
  | .stepKeyDown e => ((handleKeyPress s e).1, [])
  | .clickAddStep => (addStep s, [])
  | .formSubmit => (onSubmit s s.form, [])
  | .modalCancel => (cancelEmailModal s, [])
  | .modalSubmit ok1 ok2 => handleEmailModalSubmit s ok1 ok2

/-- Reachability: the states the component can be in, together with the
cumulative trace of external calls issued on the way there. -/
inductive Reachable : ComponentState → List (ExtCall × Bool) → Prop where
  | init : Reachable initialState []
  | step {s : ComponentState} {tr : List (ExtCall × Bool)} (a : UIEvent) :
      Reachable s tr → Reachable (applyUIEvent s a).1 (tr ++ (applyUIEvent s a).2)

/-- Run a sequence of events from the initial state, keeping the state. -/
def runUIEvents (acts : List UIEvent) : ComponentState :=
  acts.foldl (fun s a => (applyUIEvent s a).1) initialState

/-- The concrete step values `["", " a ", "b", ""]` named by the spec's
formatting example. -/
def exampleSteps : List StepField :=
  [{ value := "" }, { value := " a " }, { value := "b" }, { value := "" }]

/-- Run a sequence of events from the initial state, accumulating the
trace of external calls alongside the state. -/
def runTrace (acts : List UIEvent) : ComponentState × List (ExtCall × Bool) :=
  acts.foldl (fun st a => ((applyUIEvent st.1 a).1, st.2 ++ (applyUIEvent st.1 a).2))
    (initialState, [])

/-- A filled form as staged by a successful validation pass. -/
def stagedForm : FormData :=
  { issueTitle := "App crashes"
    senderEmail := "user@example.com"
    steps := [{ value := "open the app" }] }

/-- A state with the recipient modal open over staged data and a
non-blank recipient email. -/
def modalOpenState : ComponentState :=
  { showEmailModal := true
    recipientEmail := "dev@example.com"
    pendingFormData := some stagedForm
    form := stagedForm
    errors := { stepsError := none, rootError := none } }

/-- Like `modalOpenState` but with a whitespace-only (hence non-empty)
recipient email typed into the modal. -/
def wsRecipientState : ComponentState :=
  { modalOpenState with recipientEmail := " " }

/-- An Enter keydown combined with the Ctrl modifier, Shift not held. -/
def ctrlEnter : KeyEvent :=
  { key := "Enter", shiftKey := false, ctrlKey := true, altKey := false, metaKey := false }

/-- An Enter keydown with no modifier held. -/
def plainEnter : KeyEvent :=
  { key := "Enter", shiftKey := false, ctrlKey := false, altKey := false, metaKey := false }

/-- Events reaching a modal-open state: fill one step, submit. -/
def modalReachEvents : List UIEvent :=
  [UIEvent.editStep 0 "it crashes", UIEvent.formSubmit]

/-- Events reaching a modal-open two-step state with a recipient typed. -/
def shrinkEvents : List UIEvent :=
  [UIEvent.editStep 0 "it crashes", UIEvent.clickAddStep, UIEvent.formSubmit,
   UIEvent.editRecipientEmail "dev@ex.co"]

/-- A full successful submission run: fill a step, submit, type a
recipient, confirm with both external calls succeeding. -/
def submitEvents : List UIEvent :=
  [UIEvent.editStep 0 "it crashes", UIEvent.formSubmit,
   UIEvent.editRecipientEmail "dev@ex.co", UIEvent.modalSubmit true true]

/-- The form staged during `submitEvents`. -/
def runForm : FormData :=
  { issueTitle := "", senderEmail := "", steps := [{ value := "it crashes" }] }

/-- The record persisted during `submitEvents`. -/
def runRecord : IssueRecord := buildIssueData runForm "dev@ex.co"

/-- The email payload dispatched during `submitEvents`. -/
def runParams : TemplateParams := sendEmailParams runRecord "" "dev@ex.co"

theorem str_foldl_append : ∀ (l : List String) (b : String),
    l.foldl (fun r s => r ++ s) b = b ++ String.join l := by
  intro l
  induction l with
  | nil => intro b; simp [String.join, String.append_empty]
  | cons x xs ih =>
      intro b
      have hx : String.join (x :: xs) = x ++ String.join xs := by
        show List.foldl (fun r s => r ++ s) ("" ++ x) xs = x ++ String.join xs
        rw [String.empty_append, ih x]
      rw [List.foldl_cons, ih (b ++ x), hx, String.append_assoc]

theorem join_cons_str (x : String) (l : List String) :
    String.join (x :: l) = x ++ String.join l := by
  show List.foldl (fun r s => r ++ s) ("" ++ x) l = x ++ String.join l
  rw [String.empty_append, str_foldl_append l x]

/-- The `forEach` accumulation in `formatEmailBody` equals the prefix
followed by the join of the numbered lines. -/
theorem foldl_numbered_join :
    ∀ (l : List (Nat × (String × Nat))) (b : String),
      l.foldl (fun acc p => acc ++ toString (p.1 + 1) ++ ". " ++ p.2.1 ++ "\n") b
        = b ++ String.join (l.map (fun p => toString (p.1 + 1) ++ ". " ++ p.2.1 ++ "\n")) := by
  intro l
  induction l with
  | nil => intro b; simp [String.join, String.append_empty]
  | cons x xs ih =>
      intro b
      rw [List.foldl_cons, ih, List.map_cons, join_cons_str]
      simp [String.append_assoc]

/-- Enumeration commutes with `map` on the underlying list. -/
theorem enumFrom_map_pairs (f : α → β) :
    ∀ (l : List α) (n : Nat),
      (l.map f).enumFrom n = (l.enumFrom n).map (fun p => (p.1, f p.2)) := by
  intro l
  induction l with
  | nil => intro n; rfl
  | cons x xs ih => intro n; simp [List.enumFrom, ih (n + 1)]

/-- Projecting the trimmed values out of the filtered (value, original
index) pairs built by `formatEmailBody` yields exactly the filtered
trimmed step values, independently of the enumeration offset. -/
theorem filtered_pairs_fst :
    ∀ (steps : List StepField) (n : Nat),
      (((steps.enumFrom n).map (fun p => (jsTrim p.2.value, p.1 + 1))).filter
          (fun item => item.1 != "")).map Prod.fst
        = (steps.map (fun sf => jsTrim sf.value)).filter (fun s => s != "") := by
  intro steps
  induction steps with
  | nil => intro n; rfl
  | cons x xs ih =>
      intro n
      by_cases h : jsTrim x.value = ""
      · simp [List.enumFrom, List.filter_cons, h, ih (n + 1)]
      · simp [List.enumFrom, List.filter_cons, h, ih (n + 1)]

/-- Claim C1: for every step list, `formatEmailBody` produces the line
`Issue: <title>`, a blank line, the `Steps:` header, then each step
whose trimmed value is non-empty, trimmed, in input order, numbered
contiguously from 1, one per line each terminated by a newline; and on
the step values `["", " a ", "b", ""]` the step-list portion is exactly
`1. a\n2. b\n`. -/
theorem formatEmailBody_numbered_trimmed_steps :
    (∀ (title : String) (steps : List StepField),
      formatEmailBody { issueTitle := title, steps := steps } =
        "Issue: " ++ title ++ "\n\n" ++ "Steps:\n" ++
          specNumberedStepLines (steps.map StepField.value)) ∧
    formatEmailBody { issueTitle := "T", steps := exampleSteps } =
      "Issue: T" ++ "\n\n" ++ "Steps:\n" ++ ("1. a\n" ++ "2. b\n") := by
  constructor
  · intro title steps
    have hkept : ((((steps.enumFrom 0).map (fun p => (jsTrim p.2.value, p.1 + 1))).filter
          (fun item => item.1 != "")).map Prod.fst)
        = ((steps.map StepField.value).map jsTrim).filter (fun s => s != "") := by
      rw [List.map_map]
      exact filtered_pairs_fst steps 0
    simp only [formatEmailBody, specNumberedStepLines]
    rw [foldl_numbered_join]
    show _ = _ ++ _ ++ _ ++ String.join
        (((((steps.map StepField.value).map jsTrim).filter (fun s => s != "")).enum).map
          (fun p => toString (p.1 + 1) ++ ". " ++ p.2 ++ "\n"))
    rw [← hkept]
    show _ = _ ++ _ ++ _ ++ String.join
        ((List.enumFrom 0 ((((steps.enumFrom 0).map
              (fun p => (jsTrim p.2.value, p.1 + 1))).filter
            (fun item => item.1 != "")).map Prod.fst)).map
          (fun p => toString (p.1 + 1) ++ ". " ++ p.2 ++ "\n"))
    rw [enumFrom_map_pairs, List.map_map]
    simp [List.enum, Function.comp_def, String.append_assoc]
  · decide

/-- Claim C2: when every step of the submitted form is empty or
whitespace-only after trimming, `onSubmit` sets the list-level `steps`
error, does not stage data, does not open the recipient modal, leaves
the form values unchanged, and performs no external call. -/
theorem onSubmit_blank_steps_blocks :
    ∀ (s : ComponentState),
      (∀ st ∈ s.form.steps, jsTrim st.value = "") →
      (applyUIEvent s UIEvent.formSubmit).1.errors.stepsError
          = some "Please provide at least one step." ∧
      (applyUIEvent s UIEvent.formSubmit).1.pendingFormData = s.pendingFormData ∧
      (applyUIEvent s UIEvent.formSubmit).1.showEmailModal = s.showEmailModal ∧
      (applyUIEvent s UIEvent.formSubmit).1.form = s.form ∧
      (applyUIEvent s UIEvent.formSubmit).2 = [] := by
  intro s h
  have hany : s.form.steps.any (fun step => jsTrim step.value != "") = false := by
    rw [List.any_eq_false]
    intro st hst
    simp [h st hst]
  simp [applyUIEvent, onSubmit, hany]

/-- Witness for C2: the initial state has a single blank step, and its
submission is blocked as the theorem states. -/
theorem onSubmit_blank_steps_blocks_witness :
    (∀ st ∈ initialState.form.steps, jsTrim st.value = "") ∧
    ((applyUIEvent initialState UIEvent.formSubmit).1.errors.stepsError
        = some "Please provide at least one step." ∧
      (applyUIEvent initialState UIEvent.formSubmit).1.pendingFormData
        = initialState.pendingFormData ∧
      (applyUIEvent initialState UIEvent.formSubmit).1.showEmailModal
        = initialState.showEmailModal ∧
      (applyUIEvent initialState UIEvent.formSubmit).1.form = initialState.form ∧
      (applyUIEvent initialState UIEvent.formSubmit).2 = []) :=
  ⟨by decide, onSubmit_blank_steps_blocks initialState (by decide)⟩

/-- Claim C5: cancelling the recipient modal, from any state where it is
open, closes the modal, clears exactly the modal-local state (staged
data to `none`, recipient email to empty), issues no external call, and
leaves the form values and error slots unchanged. -/
theorem modalCancel_clears_modal_state_only :
    ∀ (s : ComponentState), s.showEmailModal = true →
      (applyUIEvent s UIEvent.modalCancel).1.showEmailModal = false ∧
      (applyUIEvent s UIEvent.modalCancel).1.recipientEmail = "" ∧
      (applyUIEvent s UIEvent.modalCancel).1.pendingFormData = none ∧
      (applyUIEvent s UIEvent.modalCancel).1.form = s.form ∧
      (applyUIEvent s UIEvent.modalCancel).1.errors = s.errors ∧
      (applyUIEvent s UIEvent.modalCancel).2 = [] := by
  intro s _
  simp [applyUIEvent, cancelEmailModal]

/-- Witness for C5: cancelling from a concrete modal-open state. -/
theorem modalCancel_clears_modal_state_only_witness :
    (applyUIEvent modalOpenState UIEvent.modalCancel).1.showEmailModal = false ∧
    (applyUIEvent modalOpenState UIEvent.modalCancel).1.recipientEmail = "" ∧
    (applyUIEvent modalOpenState UIEvent.modalCancel).1.pendingFormData = none ∧
    (applyUIEvent modalOpenState UIEvent.modalCancel).1.form = modalOpenState.form ∧
    (applyUIEvent modalOpenState UIEvent.modalCancel).1.errors = modalOpenState.errors ∧
    (applyUIEvent modalOpenState UIEvent.modalCancel).2 = [] :=
  modalCancel_clears_modal_state_only modalOpenState rfl

/-- Counterexample to claim C6 as stated: a whitespace-only recipient
email is a non-empty string, yet confirming the modal with it does
nothing at all — no state change and no external call — because the
handler tests the trimmed value. -/
theorem whitespace_recipient_nonempty_noop :
    wsRecipientState.recipientEmail ≠ "" ∧
    handleEmailModalSubmit wsRecipientState true true = (wsRecipientState, []) ∧
    (applyUIEvent wsRecipientState (UIEvent.modalSubmit true true)).2 = [] := by
  decide

/-- Claim C6 (amended): on recipient confirmation the workflow proceeds
to build the record and issue the persistence call for every recipient
email whose trimmed value is non-empty; for every recipient email that
is empty or whitespace-only after trimming it does nothing (state
unchanged, no external call). -/
theorem modalSubmit_requires_nonblank_recipient :
    ∀ (s : ComponentState) (ok1 ok2 : Bool),
      (jsTrim s.recipientEmail = "" → handleEmailModalSubmit s ok1 ok2 = (s, [])) ∧
      (∀ pending, s.pendingFormData = some pending → jsTrim s.recipientEmail ≠ "" →
        (handleEmailModalSubmit s ok1 ok2).2.head? =
          some (ExtCall.addDoc (buildIssueData pending s.recipientEmail), ok1)) := by
  intro s ok1 ok2
  constructor
  · intro h
    simp [handleEmailModalSubmit, h]
  · intro pending hp h
    cases ok1 <;> cases ok2 <;> simp [handleEmailModalSubmit, h, hp]

/-- Witness for C6 (amended): both branches at concrete states. -/
theorem modalSubmit_requires_nonblank_recipient_witness :
    handleEmailModalSubmit initialState true true = (initialState, []) ∧
    (handleEmailModalSubmit modalOpenState true true).2.head? =
      some (ExtCall.addDoc (buildIssueData stagedForm modalOpenState.recipientEmail), true) :=
  ⟨(modalSubmit_requires_nonblank_recipient initialState true true).1 (by decide),
   (modalSubmit_requires_nonblank_recipient modalOpenState true true).2 stagedForm rfl
     (by decide)⟩

/-- Counterexample to claim C7 as stated: Enter combined with the Ctrl
modifier (Shift not held) still triggers `append` — the handler only
inspects `shiftKey`, so "Enter combined with any modifier does not
trigger append" is false. -/
theorem ctrlEnter_triggers_append :
    handleKeyPress initialState ctrlEnter = (addStep initialState, true) ∧
    (addStep initialState).form.steps.length = 2 := by
  decide

/-- Claim C7 (amended): Enter without Shift calls `preventDefault` and
appends one empty step; Enter with Shift does nothing; a non-Enter key
does nothing.  Modifiers other than Shift are not inspected. -/
theorem handleKeyPress_enter_shift_only :
    ∀ (s : ComponentState) (e : KeyEvent),
      (e.key = "Enter" → e.shiftKey = false →
        handleKeyPress s e = (addStep s, true) ∧
        (addStep s).form.steps = s.form.steps ++ [{ value := "" }]) ∧
      (e.shiftKey = true → handleKeyPress s e = (s, false)) ∧
      (e.key ≠ "Enter" → handleKeyPress s e = (s, false)) := by
  intro s e
  refine ⟨fun hk hs => ?_, fun hs => ?_, fun hk => ?_⟩
  · constructor
    · simp [handleKeyPress, hk, hs]
    · simp [addStep]
  · simp [handleKeyPress, hs]
  · simp [handleKeyPress, hk]

/-- Witness for C7 (amended): plain Enter on the initial state. -/
theorem handleKeyPress_enter_shift_only_witness :
    handleKeyPress initialState plainEnter = (addStep initialState, true) ∧
    (addStep initialState).form.steps = initialState.form.steps ++ [{ value := "" }] :=
  (handleKeyPress_enter_shift_only initialState plainEnter).1 rfl rfl

/-- Claim C9: when either external call fails, the handler sets the
single root-level failure message and does not reset the form — the
title, sender email and step values (and the staged data, modal, and
list-level error slot) are unchanged. -/
theorem externalFailure_root_error_form_kept :
    ∀ (s : ComponentState) (pending : FormData) (ok1 ok2 : Bool),
      s.pendingFormData = some pending →
      jsTrim s.recipientEmail ≠ "" →
      (ok1 = false ∨ ok2 = false) →
      (handleEmailModalSubmit s ok1 ok2).1.errors.rootError
          = some "Failed to submit issue. Please try again." ∧
      (handleEmailModalSubmit s ok1 ok2).1.form = s.form ∧
      (handleEmailModalSubmit s ok1 ok2).1.pendingFormData = s.pendingFormData ∧
      (handleEmailModalSubmit s ok1 ok2).1.showEmailModal = s.showEmailModal ∧
      (handleEmailModalSubmit s ok1 ok2).1.errors.stepsError = s.errors.stepsError := by
  intro s pending ok1 ok2 hp hne hfail
  cases ok1 <;> cases ok2 <;>
    simp_all [handleEmailModalSubmit, setRootError]

/-- Witness for C9: persistence failure at a concrete modal-open state. -/
theorem externalFailure_root_error_form_kept_witness :
    (handleEmailModalSubmit modalOpenState false true).1.errors.rootError
        = some "Failed to submit issue. Please try again." ∧
    (handleEmailModalSubmit modalOpenState false true).1.form = modalOpenState.form ∧
    (handleEmailModalSubmit modalOpenState false true).1.pendingFormData
        = modalOpenState.pendingFormData ∧
    (handleEmailModalSubmit modalOpenState false true).1.showEmailModal
        = modalOpenState.showEmailModal ∧
    (handleEmailModalSubmit modalOpenState false true).1.errors.stepsError
        = modalOpenState.errors.stepsError :=
  externalFailure_root_error_form_kept modalOpenState stagedForm false true rfl
    (by decide) (Or.inl rfl)

/-- Every single handler invocation issues either no external call, a
single failed persistence call, or a successful persistence call
followed by one notification call. -/
theorem applyUIEvent_trace_shape :
    ∀ (s : ComponentState) (a : UIEvent),
      (applyUIEvent s a).2 = [] ∨
      (∃ rec, (applyUIEvent s a).2 = [(ExtCall.addDoc rec, false)]) ∨
      (∃ rec p r, (applyUIEvent s a).2
          = [(ExtCall.addDoc rec, true), (ExtCall.sendEmail p, r)]) := by
  intro s a
  cases a with
  | editTitle t => left; rfl
  | editSenderEmail v => left; rfl
  | editStep i v => left; rfl
  | editRecipientEmail v => left; rfl
  | stepKeyDown e => left; rfl
  | clickAddStep => left; rfl
  | formSubmit => left; rfl
  | modalCancel => left; rfl
  | modalSubmit ok1 ok2 =>
      by_cases h : jsTrim s.recipientEmail = ""
      · left; simp [applyUIEvent, handleEmailModalSubmit, h]
      · cases hp : s.pendingFormData with
        | none => left; simp [applyUIEvent, handleEmailModalSubmit, h, hp]
        | some pending =>
            cases ok1 with
            | false =>
                right; left
                refine ⟨buildIssueData pending s.recipientEmail, ?_⟩
                simp [applyUIEvent, handleEmailModalSubmit, h, hp]
            | true =>
                cases ok2 with
                | false =>
                    right; right
                    refine ⟨buildIssueData pending s.recipientEmail,
                      sendEmailParams (buildIssueData pending s.recipientEmail)
                        pending.senderEmail s.recipientEmail, false, ?_⟩
                    simp [applyUIEvent, handleEmailModalSubmit, h, hp]
                | true =>
                    right; right
                    refine ⟨buildIssueData pending s.recipientEmail,
                      sendEmailParams (buildIssueData pending s.recipientEmail)
                        pending.senderEmail s.recipientEmail, true, ?_⟩
                    simp [applyUIEvent, handleEmailModalSubmit, h, hp]

/-- Folding events onto a reachable configuration stays reachable. -/
theorem reachable_foldl :
    ∀ (acts : List UIEvent) (s : ComponentState) (tr : List (ExtCall × Bool)),
      Reachable s tr →
      Reachable
        ((acts.foldl (fun st a => ((applyUIEvent st.1 a).1, st.2 ++ (applyUIEvent st.1 a).2))
          (s, tr)).1)
        ((acts.foldl (fun st a => ((applyUIEvent st.1 a).1, st.2 ++ (applyUIEvent st.1 a).2))
          (s, tr)).2) := by
  intro acts
  induction acts with
  | nil => intro s tr h; exact h
  | cons a as ih => intro s tr h; exact ih _ _ (Reachable.step a h)

/-- Every concrete run is reachable with its accumulated trace. -/
theorem reachable_runTrace (acts : List UIEvent) :
    Reachable (runTrace acts).1 (runTrace acts).2 :=
  reachable_foldl acts initialState [] Reachable.init

/-- Claim C3: when the persistence write succeeds and the notification
call then throws, the trace of the handler is exactly the successful
`addDoc` followed by the failed `sendEmail` — no delete or compensating
write — and the root-level failure message is set; moreover no reachable
execution of the component ever issues a `deleteDoc` retraction. -/
theorem addDoc_kept_on_sendEmail_failure :
    (∀ (s : ComponentState) (pending : FormData),
      s.pendingFormData = some pending →
      jsTrim s.recipientEmail ≠ "" →
      (handleEmailModalSubmit s true false).2 =
        [(ExtCall.addDoc (buildIssueData pending s.recipientEmail), true),
         (ExtCall.sendEmail (sendEmailParams (buildIssueData pending s.recipientEmail)
            pending.senderEmail s.recipientEmail), false)] ∧
      (handleEmailModalSubmit s true false).1.errors.rootError
          = some "Failed to submit issue. Please try again.") ∧
    (∀ (s : ComponentState) (tr : List (ExtCall × Bool)), Reachable s tr →
      ∀ e ∈ tr, ∀ rec, e.1 ≠ ExtCall.deleteDoc rec) := by
  constructor
  · intro s pending hp hne
    constructor
    · simp [handleEmailModalSubmit, hp, hne]
    · simp [handleEmailModalSubmit, hp, hne, setRootError]
  · intro s tr h
    induction h with
    | init => intro e he; cases he
    | step a hprev ih =>
        intro e he rec
        rcases List.mem_append.mp he with h1 | h2
        · exact ih e h1 rec
        · rcases applyUIEvent_trace_shape _ a with h0 | ⟨r0, h0⟩ | ⟨r0, p0, b0, h0⟩ <;>
            rw [h0] at h2
          · cases h2
          · simp only [List.mem_singleton] at h2
            subst h2; simp
          · simp only [List.mem_cons, List.mem_singleton, List.not_mem_nil,
              or_false] at h2
            rcases h2 with rfl | rfl <;> simp

/-- Witness for C3: the failed-notification run at a concrete
modal-open state. -/
theorem addDoc_kept_on_sendEmail_failure_witness :
    ((handleEmailModalSubmit modalOpenState true false).2 =
        [(ExtCall.addDoc (buildIssueData stagedForm modalOpenState.recipientEmail), true),
         (ExtCall.sendEmail (sendEmailParams
            (buildIssueData stagedForm modalOpenState.recipientEmail)
            stagedForm.senderEmail modalOpenState.recipientEmail), false)] ∧
      (handleEmailModalSubmit modalOpenState true false).1.errors.rootError
          = some "Failed to submit issue. Please try again.") ∧
    (∀ e ∈ (runTrace submitEvents).2, ∀ rec, e.1 ≠ ExtCall.deleteDoc rec) :=
  ⟨addDoc_kept_on_sendEmail_failure.1 modalOpenState stagedForm rfl (by decide),
   addDoc_kept_on_sendEmail_failure.2 (runTrace submitEvents).1 (runTrace submitEvents).2
     (reachable_runTrace submitEvents)⟩

/-- Claim C4: in every reachable trace, a notification (`sendEmail`)
event only occurs at a position strictly after a successful persistence
(`addDoc`) event: the notification is never issued unless the
persistence write has already completed successfully. -/
theorem sendEmail_after_addDoc_success :
    ∀ (s : ComponentState) (tr : List (ExtCall × Bool)), Reachable s tr →
      ∀ (j : Nat) (p : TemplateParams) (r : Bool),
        tr[j]? = some (ExtCall.sendEmail p, r) →
        ∃ (i : Nat) (rec : IssueRecord), i < j ∧
          tr[i]? = some (ExtCall.addDoc rec, true) := by
  intro s tr h
  induction h with
  | init => intro j p r hj; simp at hj
  | step a hprev ih =>
      rename_i s0 tr0
      intro j p r hj
      by_cases hlt : j < tr0.length
      · rw [List.getElem?_append_left hlt] at hj
        obtain ⟨i, rec, hij, hi⟩ := ih j p r hj
        exact ⟨i, rec, hij, by
          rw [List.getElem?_append_left (Nat.lt_trans hij hlt)]; exact hi⟩
      · have hge : tr0.length ≤ j := Nat.le_of_not_lt hlt
        rw [List.getElem?_append_right hge] at hj
        rcases applyUIEvent_trace_shape s0 a with h0 | ⟨r0, h0⟩ | ⟨r0, p0, b0, h0⟩ <;>
          rw [h0] at hj
        · simp at hj
        · have hcase : j - tr0.length = 0 ∨ 1 ≤ j - tr0.length := by omega
          rcases hcase with h1 | h1
          · rw [h1] at hj; simp at hj
          · rw [List.getElem?_eq_none (by simp; omega)] at hj
            cases hj
        · have hcase : j - tr0.length = 0 ∨ j - tr0.length = 1 ∨ 2 ≤ j - tr0.length := by
            omega
          rcases hcase with h1 | h1 | h1
          · rw [h1] at hj; simp at hj
          · refine ⟨tr0.length, r0, by omega, ?_⟩
            rw [List.getElem?_append_right (Nat.le_refl _), Nat.sub_self, h0]
            rfl
          · rw [List.getElem?_eq_none (by simp; omega)] at hj
            cases hj

/-- Witness for C4: in the successful run's trace the notification event
sits at index 1 and the theorem yields the earlier successful `addDoc`. -/
theorem sendEmail_after_addDoc_success_witness :
    ∃ (i : Nat) (rec : IssueRecord), i < 1 ∧
      ((runTrace submitEvents).2)[i]? = some (ExtCall.addDoc rec, true) :=
  sendEmail_after_addDoc_success (runTrace submitEvents).1 (runTrace submitEvents).2
    (reachable_runTrace submitEvents) 1 runParams true (by decide)

/-- Every handler either keeps the step list at least as long, or has
reset the whole form to `defaultValues`. -/
theorem applyUIEvent_steps_len :
    ∀ (s : ComponentState) (a : UIEvent),
      s.form.steps.length ≤ (applyUIEvent s a).1.form.steps.length ∨
      (applyUIEvent s a).1.form = defaultValues := by
  intro s a
  cases a with
  | editTitle t => left; exact Nat.le_refl _
  | editSenderEmail v => left; exact Nat.le_refl _
  | editStep i v =>
      left
      show s.form.steps.length ≤ (s.form.steps.set i { value := v }).length
      rw [List.length_set]
  | editRecipientEmail v => left; exact Nat.le_refl _
  | stepKeyDown e =>
      left
      simp only [applyUIEvent, handleKeyPress]
      split
      · simp [addStep]
      · exact Nat.le_refl _
  | clickAddStep =>
      left
      simp [applyUIEvent, addStep]
  | formSubmit =>
      left
      simp only [applyUIEvent, onSubmit]
      split
      · exact Nat.le_refl _
      · exact Nat.le_refl _
  | modalCancel => left; exact Nat.le_refl _
  | modalSubmit ok1 ok2 =>
      by_cases h : jsTrim s.recipientEmail = ""
      · left
        have he : (applyUIEvent s (UIEvent.modalSubmit ok1 ok2)).1 = s := by
          simp [applyUIEvent, handleEmailModalSubmit, h]
        rw [he]
      · cases hp : s.pendingFormData with
        | none =>
            left
            have he : (applyUIEvent s (UIEvent.modalSubmit ok1 ok2)).1 = setRootError s := by
              simp [applyUIEvent, handleEmailModalSubmit, h, hp]
            rw [he]
            exact Nat.le_refl _
        | some pending =>
            cases ok1 with
            | false =>
                left
                have he : (applyUIEvent s (UIEvent.modalSubmit false ok2)).1
                    = setRootError s := by
                  simp [applyUIEvent, handleEmailModalSubmit, h, hp]
                rw [he]
                exact Nat.le_refl _
            | true =>
                cases ok2 with
                | false =>
                    left
                    have he : (applyUIEvent s (UIEvent.modalSubmit true false)).1
                        = setRootError s := by
                      simp [applyUIEvent, handleEmailModalSubmit, h, hp]
                    rw [he]
                    exact Nat.le_refl _
                | true =>
                    right
                    simp [applyUIEvent, handleEmailModalSubmit, h, hp]

/-- Claim C8 (amended): the step list starts as a single empty entry;
`append` adds exactly one empty entry; every reachable state keeps at
least one step; and the only operation that ever shortens the list is
the reset on fully successful submission, which restores the single
empty default entry. -/
theorem steps_list_invariants :
    initialState.form.steps = [{ value := "" }] ∧
    (∀ s, (addStep s).form.steps = s.form.steps ++ [{ value := "" }]) ∧
    (∀ (s : ComponentState) (tr : List (ExtCall × Bool)), Reachable s tr →
      1 ≤ s.form.steps.length) ∧
    (∀ (s : ComponentState) (a : UIEvent),
      (applyUIEvent s a).1.form.steps.length < s.form.steps.length →
      (applyUIEvent s a).1.form = defaultValues) := by
  refine ⟨rfl, fun s => rfl, ?_, ?_⟩
  · intro s tr h
    induction h with
    | init => exact Nat.le_refl 1
    | step a hprev ih =>
        rcases applyUIEvent_steps_len _ a with hle | heq
        · exact Nat.le_trans ih hle
        · rw [heq]; exact Nat.le_refl 1
  · intro s a hlt
    rcases applyUIEvent_steps_len s a with hle | heq
    · omega
    · exact heq

/-- Counterexample to claim C8's "no operation in the flow decreases the
list's length": a reachable two-step form drops back to one step when
the modal submission succeeds and `reset()` runs. -/
theorem successful_submit_shrinks_steps :
    (runUIEvents shrinkEvents).form.steps.length = 2 ∧
    (runUIEvents (shrinkEvents ++ [UIEvent.modalSubmit true true])).form.steps.length
        = 1 := by
  decide

/-- Witness for C8 (amended): the initial state has one step, and the
length drop on the concrete successful submission indeed lands on
`defaultValues`. -/
theorem steps_list_invariants_witness :
    1 ≤ initialState.form.steps.length ∧
    (applyUIEvent (runUIEvents shrinkEvents) (UIEvent.modalSubmit true true)).1.form
        = defaultValues :=
  ⟨steps_list_invariants.2.2.1 initialState [] Reachable.init,
   steps_list_invariants.2.2.2 (runUIEvents shrinkEvents) (UIEvent.modalSubmit true true)
     (by decide)⟩

/-- A single handler invocation preserves "modal open implies staged
data present". -/
theorem applyUIEvent_modal_staged :
    ∀ (s : ComponentState) (a : UIEvent),
      (s.showEmailModal = true → s.pendingFormData ≠ none) →
      (applyUIEvent s a).1.showEmailModal = true →
      (applyUIEvent s a).1.pendingFormData ≠ none := by
  intro s a hinv hm
  cases a with
  | editTitle t => exact hinv hm
  | editSenderEmail v => exact hinv hm
  | editStep i v => exact hinv hm
  | editRecipientEmail v => exact hinv hm
  | stepKeyDown e =>
      revert hm
      simp only [applyUIEvent, handleKeyPress]
      split
      · intro hm; exact hinv hm
      · intro hm; exact hinv hm
  | clickAddStep => exact hinv hm
  | formSubmit =>
      revert hm
      simp only [applyUIEvent, onSubmit]
      split
      · intro _; simp
      · intro hm; exact hinv hm
  | modalCancel =>
      simp [applyUIEvent, cancelEmailModal] at hm
  | modalSubmit ok1 ok2 =>
      by_cases h : jsTrim s.recipientEmail = ""
      · have he : applyUIEvent s (UIEvent.modalSubmit ok1 ok2) = (s, []) := by
          simp [applyUIEvent, handleEmailModalSubmit, h]
        rw [he] at hm ⊢
        exact hinv hm
      · cases hp : s.pendingFormData with
        | none =>
            have he : (applyUIEvent s (UIEvent.modalSubmit ok1 ok2)).1
                = setRootError s := by
              simp [applyUIEvent, handleEmailModalSubmit, h, hp]
            rw [he] at hm
            exact absurd hp (hinv hm)
        | some pending =>
            cases ok1 with
            | false =>
                have he : (applyUIEvent s (UIEvent.modalSubmit false ok2)).1
                    = setRootError s := by
                  simp [applyUIEvent, handleEmailModalSubmit, h, hp]
                rw [he]
                simp [setRootError, hp]
            | true =>
                cases ok2 with
                | false =>
                    have he : (applyUIEvent s (UIEvent.modalSubmit true false)).1
                        = setRootError s := by
                      simp [applyUIEvent, handleEmailModalSubmit, h, hp]
                    rw [he]
                    simp [setRootError, hp]
                | true =>
                    have he : (applyUIEvent s (UIEvent.modalSubmit true true)).1.showEmailModal
                        = false := by
                      simp [applyUIEvent, handleEmailModalSubmit, h, hp]
                    rw [he] at hm
                    cases hm

/-- Claim C10: in every reachable state, if the recipient modal is open
then staged form data is present, so the modal submit handler never
dereferences a null `pendingFormData`. -/
theorem modal_open_implies_staged :
    ∀ (s : ComponentState) (tr : List (ExtCall × Bool)), Reachable s tr →
      s.showEmailModal = true → s.pendingFormData ≠ none := by
  intro s tr h
  induction h with
  | init => intro hm; simp [initialState] at hm
  | step a hprev ih => exact applyUIEvent_modal_staged _ a ih

/-- Witness for C10: after filling a step and submitting, the modal is
open and the staged data is present. -/
theorem modal_open_implies_staged_witness :
    (runUIEvents modalReachEvents).pendingFormData ≠ none :=
  modal_open_implies_staged (runUIEvents modalReachEvents)
    (([] : List (ExtCall × Bool)) ++ [] ++ [])
    (Reachable.step UIEvent.formSubmit
      (Reachable.step (UIEvent.editStep 0 "it crashes") Reachable.init))
    (by decide)
